import Mathlib

/-!
Verification of the wellness-hub analytics modules.

The Python modules (`fitness_calculator.py`, `meal_generator.py`,
`insights_generator.py`, `sentiment_analyzer.py`) are shallowly embedded
here: Python numbers are modelled as rationals, `round(x, n)` is modelled
exactly (Python rounds half to even), dictionaries become structures and
Python lists become Lean lists.  `random.choice` is modelled by an
arbitrary stream of indices, so theorems quantified over the stream hold
for every possible outcome of the random selection.
-/

/-- Python's `round` on a rational: round half to even (banker's rounding). -/
def pyRound (q : ℚ) : ℤ :=
  if q - (⌊q⌋ : ℚ) < 1/2 then ⌊q⌋
  else if 1/2 < q - (⌊q⌋ : ℚ) then ⌊q⌋ + 1
  else if 2 ∣ ⌊q⌋ then ⌊q⌋ else ⌊q⌋ + 1

/-- Python's `round(x, 2)`. -/
def round2 (q : ℚ) : ℚ := (pyRound (q * 100) : ℚ) / 100

/-- Python's `round(x, 1)`. -/
def round1 (q : ℚ) : ℚ := (pyRound (q * 10) : ℚ) / 10

theorem pyRound_le (q : ℚ) : (pyRound q : ℚ) ≤ q + 1/2 := by
  unfold pyRound
  have hf : (⌊q⌋ : ℚ) ≤ q := Int.floor_le q
  have hf2 : q < (⌊q⌋ : ℚ) + 1 := Int.lt_floor_add_one q
  split
  · linarith
  · split
    · push_cast; linarith
    · split
      · linarith
      · push_cast
        rename_i h1 h2 _
        have h3 : q - (⌊q⌋ : ℚ) = 1/2 := le_antisymm (not_lt.mp h2) (not_lt.mp h1)
        linarith

theorem le_pyRound (q : ℚ) : q - 1/2 ≤ (pyRound q : ℚ) := by
  unfold pyRound
  have hf : (⌊q⌋ : ℚ) ≤ q := Int.floor_le q
  have hf2 : q < (⌊q⌋ : ℚ) + 1 := Int.lt_floor_add_one q
  split
  · rename_i h1; linarith
  · split
    · push_cast; linarith
    · split
      · rename_i h1 h2 _
        have h3 : q - (⌊q⌋ : ℚ) = 1/2 := le_antisymm (not_lt.mp h2) (not_lt.mp h1)
        linarith
      · push_cast; linarith

theorem pyRound_intCast (z : ℤ) : pyRound (z : ℚ) = z := by
  unfold pyRound
  rw [Int.floor_intCast]
  simp

/-- `pyRound` commutes with adding an even integer (the parity used by the
half-to-even tie break is preserved). -/
theorem pyRound_add_two_mul (q : ℚ) (n : ℤ) :
    pyRound (q + ((2 * n : ℤ) : ℚ)) = pyRound q + 2 * n := by
  unfold pyRound
  rw [Int.floor_add_int]
  have harg : q + ((2 * n : ℤ) : ℚ) - ((⌊q⌋ + 2 * n : ℤ) : ℚ) = q - (⌊q⌋ : ℚ) := by
    push_cast; ring
  rw [harg]
  split
  · rfl
  · split
    · ring
    · by_cases h2 : (2 : ℤ) ∣ ⌊q⌋
      · rw [if_pos (by omega), if_pos h2]
      · rw [if_neg (by omega), if_neg h2]; ring

theorem round2_le (q : ℚ) : round2 q ≤ q + 1/200 := by
  unfold round2
  have h := pyRound_le (q * 100)
  calc (pyRound (q * 100) : ℚ) / 100 ≤ (q * 100 + 1/2) / 100 :=
        div_le_div_of_nonneg_right h (by norm_num) |>.trans_eq rfl
    _ = q + 1/200 := by ring

theorem le_round2 (q : ℚ) : q - 1/200 ≤ round2 q := by
  unfold round2
  have h := le_pyRound (q * 100)
  calc q - 1/200 = (q * 100 - 1/2) / 100 := by ring
    _ ≤ (pyRound (q * 100) : ℚ) / 100 := div_le_div_of_nonneg_right h (by norm_num)

/-- Evaluate `round2` at a value that is exact at two decimals. -/
theorem round2_eq (q : ℚ) (z : ℤ) (h : q * 100 = (z : ℚ)) : round2 q = (z : ℚ) / 100 := by
  unfold round2
  rw [h, pyRound_intCast]

/-- Evaluate `round1` at a value that is exact at one decimal. -/
theorem round1_eq (q : ℚ) (z : ℤ) (h : q * 10 = (z : ℚ)) : round1 q = (z : ℚ) / 10 := by
  unfold round1
  rw [h, pyRound_intCast]

/-- If `10 * q` is an integer then rounding `q` to one decimal is the identity. -/
theorem round1_eq_self (q : ℚ) (h : ∃ z : ℤ, (10 : ℚ) * q = z) : round1 q = q := by
  obtain ⟨z, hz⟩ := h
  rw [mul_comm] at hz
  rw [round1_eq q z hz, ← hz]
  ring

/-- `10 * round1 x` is always an integer. -/
theorem ten_mul_round1 (q : ℚ) : ∃ z : ℤ, (10 : ℚ) * round1 q = z := by
  refine ⟨pyRound (q * 10), ?_⟩
  unfold round1
  ring

/-! ## fitness_calculator.py -/

/-- ASCII lower-casing of one character, as Python's `str.lower` does on the
catalog's ASCII strings. -/
def lowerChar (c : Char) : Char :=
  if 65 ≤ c.toNat ∧ c.toNat ≤ 90 then Char.ofNat (c.toNat + 32) else c

/-- Python's `s.lower()` on ASCII strings. -/
def pyLower (s : String) : String := String.mk (s.data.map lowerChar)

/-- `gender.lower() == 'male'` -/
def isMale (gender : String) : Bool := pyLower gender == "male"

/-- `calculate_bmi(weight_kg, height_cm)` -/
def calculate_bmi (weight_kg height_cm : ℚ) : ℚ :=
  round2 (weight_kg / (height_cm / 100) ^ 2)

/-- `get_bmi_category(bmi)` -/
def get_bmi_category (bmi : ℚ) : String :=
  if bmi < 18.5 then "Underweight"
  else if bmi < 25 then "Normal weight"
  else if bmi < 30 then "Overweight"
  else "Obese"

/-- `calculate_bmr(age, weight_kg, height_cm, gender)` (Mifflin-St Jeor). -/
def calculate_bmr (age weight_kg height_cm : ℚ) (gender : String) : ℚ :=
  if isMale gender then
    round2 ((10 * weight_kg) + (6.25 * height_cm) - (5 * age) + 5)
  else
    round2 ((10 * weight_kg) + (6.25 * height_cm) - (5 * age) - 161)

/-- The multiplier table of `calculate_tdee`, with the default 1.2. -/
def activity_multiplier (activity_level : String) : ℚ :=
  if pyLower activity_level = "sedentary" then 1.2
  else if pyLower activity_level = "light" then 1.375
  else if pyLower activity_level = "moderate" then 1.55
  else if pyLower activity_level = "active" then 1.725
  else if pyLower activity_level = "very_active" then 1.9
  else 1.2

/-- `calculate_tdee(bmr, activity_level)` -/
def calculate_tdee (bmr : ℚ) (activity_level : String) : ℚ :=
  round2 (bmr * activity_multiplier activity_level)

/-- `calculate_calorie_goal(tdee, goal)` -/
def calculate_calorie_goal (tdee : ℚ) (goal : String) : ℚ :=
  if pyLower goal = "lose" then round2 (tdee - 500)
  else if pyLower goal = "gain" then round2 (tdee + 500)
  else round2 tdee

structure Macros where
  protein : ℚ
  carbs : ℚ
  fats : ℚ
deriving DecidableEq

/-- `calculate_macros(calories, goal)` -/
def calculate_macros (calories : ℚ) (goal : String) : Macros :=
  if pyLower goal = "lose" then
    { protein := round1 ((calories * 0.35) / 4)
      carbs := round1 ((calories * 0.35) / 4)
      fats := round1 ((calories * 0.30) / 9) }
  else if pyLower goal = "gain" then
    { protein := round1 ((calories * 0.30) / 4)
      carbs := round1 ((calories * 0.45) / 4)
      fats := round1 ((calories * 0.25) / 9) }
  else
    { protein := round1 ((calories * 0.30) / 4)
      carbs := round1 ((calories * 0.40) / 4)
      fats := round1 ((calories * 0.30) / 9) }

structure FitnessProfile where
  bmi : ℚ
  bmi_category : String
  bmr : ℚ
  tdee : ℚ
  calorie_goal : ℚ
  macros : Macros
deriving DecidableEq

/-- `get_complete_profile(age, weight_kg, height_cm, gender, activity_level, goal)` -/
def get_complete_profile (age weight_kg height_cm : ℚ)
    (gender activity_level goal : String) : FitnessProfile :=
  { bmi := calculate_bmi weight_kg height_cm
    bmi_category := get_bmi_category (calculate_bmi weight_kg height_cm)
    bmr := calculate_bmr age weight_kg height_cm gender
    tdee := calculate_tdee (calculate_bmr age weight_kg height_cm gender) activity_level
    calorie_goal :=
      calculate_calorie_goal
        (calculate_tdee (calculate_bmr age weight_kg height_cm gender) activity_level) goal
    macros :=
      calculate_macros
        (calculate_calorie_goal
          (calculate_tdee (calculate_bmr age weight_kg height_cm gender) activity_level) goal)
        goal }

example : isMale "Male" = true := by decide
example : isMale "female" = false := by decide
example : calculate_bmr 25 70 175 "male" = 1673.75 := by
  have h : isMale "male" = true := by decide
  unfold calculate_bmr
  rw [h, if_pos rfl, round2_eq _ 167375 (by norm_num)]
  norm_num

/-! ## meal_generator.py -/

/-- A meal dictionary.  The scaled copy produced by `scale_meal` has no
`tags` key in the source; it is modelled by an empty tag list. -/
structure Meal where
  name : String
  calories : ℚ
  protein : ℚ
  carbs : ℚ
  fats : ℚ
  tags : List String
deriving DecidableEq

def MEALS_breakfast : List Meal :=
  [ { name := "Oatmeal with Berries and Almonds", calories := 350, protein := 12,
      carbs := 55, fats := 10, tags := ["vegetarian", "vegan", "halal"] },
    { name := "Scrambled Eggs with Whole Wheat Toast", calories := 400, protein := 25,
      carbs := 35, fats := 15, tags := ["vegetarian", "halal"] },
    { name := "Greek Yogurt Parfait with Granola", calories := 380, protein := 20,
      carbs := 50, fats := 10, tags := ["vegetarian", "halal"] },
    { name := "Avocado Toast with Chickpeas", calories := 420, protein := 15,
      carbs := 45, fats := 18, tags := ["vegetarian", "vegan", "halal"] },
    { name := "Smoothie Bowl with Banana and Chia Seeds", calories := 360, protein := 10,
      carbs := 60, fats := 8, tags := ["vegetarian", "vegan", "halal", "lactose_free"] },
    { name := "Whole Grain Pancakes with Maple Syrup", calories := 450, protein := 14,
      carbs := 70, fats := 12, tags := ["vegetarian", "halal"] },
    { name := "Protein Smoothie with Almond Milk", calories := 320, protein := 25,
      carbs := 35, fats := 8, tags := ["vegetarian", "vegan", "halal", "lactose_free"] } ]

def MEALS_lunch : List Meal :=
  [ { name := "Quinoa Salad with Roasted Vegetables", calories := 480, protein := 18,
      carbs := 65, fats := 15, tags := ["vegetarian", "vegan", "halal", "lactose_free"] },
    { name := "Grilled Chicken Wrap with Hummus", calories := 520, protein := 35,
      carbs := 50, fats := 18, tags := ["halal"] },
    { name := "Lentil Soup with Whole Grain Bread", calories := 450, protein := 22,
      carbs := 70, fats := 8, tags := ["vegetarian", "vegan", "halal", "lactose_free"] },
    { name := "Chickpea and Spinach Curry with Rice", calories := 500, protein := 20,
      carbs := 75, fats := 12, tags := ["vegetarian", "vegan", "halal", "lactose_free"] },
    { name := "Veggie Burger with Sweet Potato Fries", calories := 550, protein := 25,
      carbs := 68, fats := 20, tags := ["vegetarian", "vegan", "halal", "lactose_free"] },
    { name := "Tuna Salad with Mixed Greens", calories := 420, protein := 35,
      carbs := 25, fats := 20, tags := ["halal", "lactose_free"] },
    { name := "Falafel Bowl with Tahini Sauce", calories := 510, protein := 18,
      carbs := 60, fats := 22, tags := ["vegetarian", "vegan", "halal", "lactose_free"] } ]

def MEALS_dinner : List Meal :=
  [ { name := "Baked Salmon with Asparagus and Brown Rice", calories := 580, protein := 40,
      carbs := 55, fats := 18, tags := ["halal", "lactose_free"] },
    { name := "Stir-Fried Tofu with Vegetables and Noodles", calories := 520, protein := 25,
      carbs := 65, fats := 15, tags := ["vegetarian", "vegan", "halal", "lactose_free"] },
    { name := "Grilled Chicken Breast with Roasted Potatoes", calories := 550, protein := 45,
      carbs := 50, fats := 15, tags := ["halal", "lactose_free"] },
    { name := "Vegetable Lasagna with Marinara", calories := 500, protein := 22,
      carbs := 60, fats := 18, tags := ["vegetarian", "halal"] },
    { name := "Black Bean and Sweet Potato Enchiladas", calories := 530, protein := 20,
      carbs := 75, fats := 16, tags := ["vegetarian", "vegan", "halal", "lactose_free"] },
    { name := "Mushroom Risotto with Garden Salad", calories := 490, protein := 15,
      carbs := 70, fats := 16, tags := ["vegetarian", "halal"] },
    { name := "Grilled Portobello Mushroom Steaks", calories := 460, protein := 18,
      carbs := 55, fats := 20, tags := ["vegetarian", "vegan", "halal", "lactose_free"] } ]

def MEALS_snacks : List Meal :=
  [ { name := "Apple with Almond Butter", calories := 200, protein := 5,
      carbs := 25, fats := 10, tags := ["vegetarian", "vegan", "halal", "lactose_free"] },
    { name := "Hummus with Carrot Sticks", calories := 150, protein := 6,
      carbs := 18, fats := 6, tags := ["vegetarian", "vegan", "halal", "lactose_free"] },
    { name := "Trail Mix with Dried Fruits", calories := 180, protein := 5,
      carbs := 22, fats := 9, tags := ["vegetarian", "vegan", "halal", "lactose_free"] },
    { name := "Protein Bar", calories := 220, protein := 15,
      carbs := 25, fats := 8, tags := ["vegetarian", "halal"] },
    { name := "Rice Cakes with Peanut Butter", calories := 190, protein := 7,
      carbs := 20, fats := 9, tags := ["vegetarian", "vegan", "halal", "lactose_free"] },
    { name := "Fresh Fruit Salad", calories := 120, protein := 2,
      carbs := 30, fats := 1, tags := ["vegetarian", "vegan", "halal", "lactose_free"] } ]

def MEALS_all : List Meal := MEALS_breakfast ++ MEALS_lunch ++ MEALS_dinner ++ MEALS_snacks

/-- `filter_meals_by_restrictions(meals, restrictions)` -/
def filter_meals_by_restrictions (meals : List Meal) (restrictions : List String) :
    List Meal :=
  if restrictions.isEmpty then meals
  else
    let filtered := meals.filter (fun meal => restrictions.all (fun r => meal.tags.contains r))
    if filtered.isEmpty then meals else filtered

/-- `scale_meal(meal, target_calories, meal_type_calories)` -/
def scale_meal (meal : Meal) (target_calories meal_type_calories : ℚ) : Meal :=
  if meal.calories = 0 then meal
  else
    { name := meal.name
      calories := (pyRound (meal.calories * (meal_type_calories / meal.calories)) : ℚ)
      protein := round1 (meal.protein * (meal_type_calories / meal.calories))
      carbs := round1 (meal.carbs * (meal_type_calories / meal.calories))
      fats := round1 (meal.fats * (meal_type_calories / meal.calories))
      tags := [] }

structure DailyTotal where
  calories : ℚ
  protein : ℚ
  carbs : ℚ
  fats : ℚ
deriving DecidableEq

structure DayPlan where
  day : ℕ
  breakfast : Meal
  lunch : Meal
  dinner : Meal
  snack : Meal
  daily_total : DailyTotal
deriving DecidableEq

def default_meal : Meal :=
  { name := "", calories := 0, protein := 0, carbs := 0, fats := 0, tags := [] }

def default_day_plan : DayPlan :=
  { day := 0, breakfast := default_meal, lunch := default_meal, dinner := default_meal,
    snack := default_meal,
    daily_total := { calories := 0, protein := 0, carbs := 0, fats := 0 } }

/-- `random.choice(options)`: the k-th call of the run picks the element at
index `r k % options.length`.  Every run of the Python generator corresponds
to some stream `r`, and conversely. -/
def choose (r : ℕ → ℕ) (k : ℕ) (options : List Meal) : Meal :=
  options.getD (r k % options.length) default_meal

/-- One iteration of the day loop of `generate_meal_plan` (`i` is the
0-based day index; the four `random.choice` calls of that iteration are the
stream positions `4*i` to `4*i+3`). -/
def build_day (r : ℕ → ℕ) (calorie_goal : ℚ) (restrictions : List String) (i : ℕ) :
    DayPlan :=
  let breakfast := scale_meal
    (choose r (4*i) (filter_meals_by_restrictions MEALS_breakfast restrictions))
    calorie_goal (calorie_goal * 0.25)
  let lunch := scale_meal
    (choose r (4*i+1) (filter_meals_by_restrictions MEALS_lunch restrictions))
    calorie_goal (calorie_goal * 0.35)
  let dinner := scale_meal
    (choose r (4*i+2) (filter_meals_by_restrictions MEALS_dinner restrictions))
    calorie_goal (calorie_goal * 0.30)
  let snack := scale_meal
    (choose r (4*i+3) (filter_meals_by_restrictions MEALS_snacks restrictions))
    calorie_goal (calorie_goal * 0.10)
  { day := i + 1
    breakfast := breakfast
    lunch := lunch
    dinner := dinner
    snack := snack
    daily_total :=
      { calories := breakfast.calories + lunch.calories + dinner.calories + snack.calories
        protein := round1 (breakfast.protein + lunch.protein + dinner.protein + snack.protein)
        carbs := round1 (breakfast.carbs + lunch.carbs + dinner.carbs + snack.carbs)
        fats := round1 (breakfast.fats + lunch.fats + dinner.fats + snack.fats) } }

/-- `generate_meal_plan(calorie_goal, restrictions, days)` -/
def generate_meal_plan (r : ℕ → ℕ) (calorie_goal : ℚ) (restrictions : List String)
    (days : ℕ) : List DayPlan :=
  (List.range days).map (build_day r calorie_goal restrictions)

/-! ## insights_generator.py -/

/-- One daily log record.  Dates are modelled as day numbers: the source
stores ISO `YYYY-MM-DD` strings whose lexicographic order is the calendar
order, so any order-embedding into naturals is faithful. -/
structure DailyLog where
  date : ℕ
  sleep_hours : ℚ
  mood_rating : ℚ
  study_hours : ℚ
  water_intake : ℚ
  exercise_minutes : ℚ
  productivity_score : ℚ
deriving DecidableEq

/-- `statistics.mean` (the callers below guard against empty lists). -/
def mean (l : List ℚ) : ℚ := l.sum / l.length

/-- `sorted(logs, key=lambda x: x['date'])` -/
def sort_logs_by_date (logs : List DailyLog) : List DailyLog :=
  List.insertionSort (fun a b => a.date ≤ b.date) logs

/-- `sorted_logs[-days:]` (for `0 < days`). -/
def recent_window (sorted_logs : List DailyLog) (days : ℕ) : List DailyLog :=
  sorted_logs.drop (sorted_logs.length - days)

/-- `sorted_logs[-days*2:-days] if len(sorted_logs) >= days*2 else sorted_logs[:days]` -/
def previous_window (sorted_logs : List DailyLog) (days : ℕ) : List DailyLog :=
  if sorted_logs.length ≥ days * 2 then
    (sorted_logs.drop (sorted_logs.length - days * 2)).take days
  else sorted_logs.take days

structure MetricTrend where
  trend : String
  change_percent : ℚ
  recent_avg : ℚ
  previous_avg : ℚ
deriving DecidableEq

/-- The per-metric body of the loop of `calculate_trends`: `recent` and
`previous` are the values of one metric over the two windows. -/
def metric_trend (recent previous : List ℚ) : MetricTrend :=
  let recent_avg := mean recent
  let previous_avg := mean previous
  let change_percent :=
    if previous_avg > 0 then (recent_avg - previous_avg) / previous_avg * 100 else 0
  { trend :=
      if change_percent > 5 then "improving"
      else if change_percent < -5 then "declining"
      else "stable"
    change_percent := round1 change_percent
    recent_avg := round2 recent_avg
    previous_avg := round2 previous_avg }

structure Trends where
  sleep_hours : MetricTrend
  mood_rating : MetricTrend
  study_hours : MetricTrend
  water_intake : MetricTrend
  exercise_minutes : MetricTrend
  productivity_score : MetricTrend
deriving DecidableEq

/-- The trends record built from the two windows. -/
def trends_of (recent previous : List DailyLog) : Trends :=
  { sleep_hours := metric_trend (recent.map (·.sleep_hours)) (previous.map (·.sleep_hours))
    mood_rating := metric_trend (recent.map (·.mood_rating)) (previous.map (·.mood_rating))
    study_hours := metric_trend (recent.map (·.study_hours)) (previous.map (·.study_hours))
    water_intake := metric_trend (recent.map (·.water_intake)) (previous.map (·.water_intake))
    exercise_minutes :=
      metric_trend (recent.map (·.exercise_minutes)) (previous.map (·.exercise_minutes))
    productivity_score :=
      metric_trend (recent.map (·.productivity_score)) (previous.map (·.productivity_score)) }

/-- `calculate_trends(logs, days)` -/
def calculate_trends (logs : List DailyLog) (days : ℕ) : Option Trends :=
  if logs.length < days then none
  else
    some (trends_of (recent_window (sort_logs_by_date logs) days)
      (previous_window (sort_logs_by_date logs) days))

structure Badge where
  name : String
  description : String
deriving DecidableEq

/-- `calculate_progress_badges(logs)` -/
def calculate_progress_badges (logs : List DailyLog) : List Badge :=
  if logs.isEmpty then []
  else
    (if logs.length ≥ 7 then
      [{ name := "Week Warrior", description := "Logged 7 days in a row" }] else [])
    ++ (if logs.length ≥ 30 then
      [{ name := "Monthly Master", description := "Logged 30 days" }] else [])
    ++ (if (logs.filter (fun log => decide (log.sleep_hours ≥ 7))).length ≥ 5 then
      [{ name := "Sleep Champion", description := "Got 7+ hours of sleep for 5+ days" }] else [])
    ++ (if (logs.filter (fun log => decide (log.exercise_minutes ≥ 30))).length ≥ 5 then
      [{ name := "Fitness Enthusiast",
         description := "Exercised 30+ minutes for 5+ days" }] else [])
    ++ (if (logs.filter (fun log => decide (log.water_intake ≥ 8))).length ≥ 5 then
      [{ name := "Hydration Hero",
         description := "Drank 8+ glasses of water for 5+ days" }] else [])
    ++ (if (logs.filter (fun log => decide (log.productivity_score ≥ 80))).length ≥ 3 then
      [{ name := "Productivity Pro",
         description := "Achieved 80+% productivity for 3+ days" }] else [])

/-! ## sentiment_analyzer.py (calculate_streak) -/

/-- A journal entry, reduced to the only field `calculate_streak` reads.
Dates are day numbers (consecutive integers are consecutive calendar
days), faithful to `datetime` day differences. -/
structure JournalEntry where
  date : ℤ
deriving DecidableEq

/-- The `for` loop of `calculate_streak`: walk the descending date list,
increment on a one-day difference, stop at a gap, skip duplicates. -/
def streak_loop : ℤ → List ℤ → ℕ → ℕ
  | _, [], streak => streak
  | current, d :: ds, streak =>
    if current - d = 1 then streak_loop d ds (streak + 1)
    else if current - d > 1 then streak
    else streak_loop current ds streak

/-- `sorted(dates, reverse=True)` -/
def sort_dates_desc (dates : List ℤ) : List ℤ :=
  List.insertionSort (· ≥ ·) dates

/-- `calculate_streak(entries)` -/
def calculate_streak (entries : List JournalEntry) : ℕ :=
  match sort_dates_desc (entries.map (·.date)) with
  | [] => 0
  | d :: ds => streak_loop d ds 1

/-! ## Helper lemmas -/

theorem round1_zero : round1 0 = 0 := by
  rw [round1_eq 0 0 (by norm_num)]
  norm_num

theorem round2_add_166 (q : ℚ) : round2 (q + 166) = round2 q + 166 := by
  unfold round2
  have h : (q + 166) * 100 = q * 100 + ((2 * 8300 : ℤ) : ℚ) := by push_cast; ring
  rw [h, pyRound_add_two_mul]
  push_cast
  ring

/-! ## C10: scale_meal is independent of target_calories -/

/-- C10: `scale_meal` never reads its `target_calories` argument: the scale
factor comes only from `meal_type_calories`, so any two targets give the
same scaled meal. -/
theorem scale_meal_target_independent (meal : Meal) (a b meal_type_calories : ℚ) :
    scale_meal meal a meal_type_calories = scale_meal meal b meal_type_calories := rfl

/-! ## C2: calculate_bmr reference value and gender shift -/

/-- C2 counterexample: `calculate_bmr(25, 70, 175, 'male')` is 1673.75, which
is not within 0.01 of the value 1674.0 stated by the claim. -/
theorem calculate_bmr_reference_cex :
    ¬ |calculate_bmr 25 70 175 "male" - 1674| ≤ 1/100 := by
  have h : calculate_bmr 25 70 175 "male" = 1673.75 := by
    have hmale : isMale "male" = true := by decide
    unfold calculate_bmr
    rw [hmale, if_pos rfl, round2_eq _ 167375 (by norm_num)]
    norm_num
  rw [h, show (1673.75 : ℚ) - 1674 = -(1/4) by norm_num, abs_neg,
    abs_of_nonneg (by norm_num : (0:ℚ) ≤ 1/4)]
  norm_num

/-- C2 (amended): `calculate_bmr(25, 70, 175, 'male')` equals exactly
1673.75, and for every input replacing the gender by any string that is not
case-insensitively "male" lowers the result by exactly 166. -/
theorem calculate_bmr_spec :
    calculate_bmr 25 70 175 "male" = 1673.75
    ∧ ∀ (age weight_kg height_cm : ℚ) (gender : String), isMale gender = false →
        calculate_bmr age weight_kg height_cm "male"
          - calculate_bmr age weight_kg height_cm gender = 166 := by
  constructor
  · have hmale : isMale "male" = true := by decide
    unfold calculate_bmr
    rw [hmale, if_pos rfl, round2_eq _ 167375 (by norm_num)]
    norm_num
  · intro age weight_kg height_cm gender hg
    have hmale : isMale "male" = true := by decide
    unfold calculate_bmr
    rw [hmale, hg, if_pos rfl, if_neg (by simp)]
    have h : (10 * weight_kg) + (6.25 * height_cm) - (5 * age) + 5
        = ((10 * weight_kg) + (6.25 * height_cm) - (5 * age) - 161) + 166 := by ring
    rw [h, round2_add_166]
    ring

/-- C2 witness: the gender shift at a concrete input. -/
theorem calculate_bmr_spec_witness :
    isMale "female" = false
    ∧ calculate_bmr 30 80 180 "male" - calculate_bmr 30 80 180 "female" = 166 :=
  ⟨by decide, calculate_bmr_spec.2 30 80 180 "female" (by decide)⟩

/-! ## C7: the two division-by-zero guards -/

/-- C7: a meal with zero calories is returned unchanged by `scale_meal`,
and a metric whose previous-window mean is zero gets `change_percent = 0`
and trend "stable" in `calculate_trends`' per-metric computation. -/
theorem division_guards_spec :
    (∀ (meal : Meal) (target_calories meal_type_calories : ℚ), meal.calories = 0 →
        scale_meal meal target_calories meal_type_calories = meal)
    ∧ (∀ recent previous : List ℚ, mean previous = 0 →
        (metric_trend recent previous).change_percent = 0
        ∧ (metric_trend recent previous).trend = "stable") := by
  constructor
  · intro meal t c h
    unfold scale_meal
    rw [if_pos h]
  · intro recent previous h
    have hcp : (if mean previous > 0 then
        (mean recent - mean previous) / mean previous * 100 else 0) = 0 := by
      rw [if_neg]
      rw [h]
      exact lt_irrefl 0
    constructor
    · show round1 (if mean previous > 0 then
        (mean recent - mean previous) / mean previous * 100 else 0) = 0
      rw [hcp, round1_zero]
    · show (if (if mean previous > 0 then
          (mean recent - mean previous) / mean previous * 100 else 0) > 5 then "improving"
        else if (if mean previous > 0 then
          (mean recent - mean previous) / mean previous * 100 else 0) < -5 then "declining"
        else "stable") = "stable"
      rw [hcp]
      norm_num

/-- C7 witness: both guards fire at concrete inputs. -/
theorem division_guards_spec_witness :
    (default_meal.calories = 0 ∧ scale_meal default_meal 500 100 = default_meal)
    ∧ (mean [0] = 0 ∧ (metric_trend [1] [0]).change_percent = 0
        ∧ (metric_trend [1] [0]).trend = "stable") := by
  have hm : mean [0] = 0 := by simp [mean]
  exact ⟨⟨rfl, division_guards_spec.1 default_meal 500 100 rfl⟩,
    ⟨hm, division_guards_spec.2 [1] [0] hm⟩⟩

/-! ## C4: restriction filtering with full-list fallback -/

/-- C4: with a non-empty restriction list, `filter_meals_by_restrictions`
returns exactly the meals whose tag set contains every restriction; when no
meal qualifies it returns the full input list. -/
theorem filter_meals_spec (meals : List Meal) (restrictions : List String)
    (hr : restrictions ≠ []) :
    ((∃ meal ∈ meals, ∀ r ∈ restrictions, r ∈ meal.tags) →
        filter_meals_by_restrictions meals restrictions
          = meals.filter (fun meal => restrictions.all (fun r => meal.tags.contains r))
        ∧ ∀ x, x ∈ filter_meals_by_restrictions meals restrictions
            ↔ x ∈ meals ∧ ∀ r ∈ restrictions, r ∈ x.tags)
    ∧ ((¬ ∃ meal ∈ meals, ∀ r ∈ restrictions, r ∈ meal.tags) →
        filter_meals_by_restrictions meals restrictions = meals) := by
  have hre : restrictions.isEmpty = false := by
    simp [hr]
  have hp : ∀ x : Meal, (restrictions.all (fun r => x.tags.contains r) = true)
      ↔ (∀ r ∈ restrictions, r ∈ x.tags) := by
    intro x
    simp [List.all_eq_true, List.contains, List.elem_iff]
  constructor
  · intro hex
    have hfne : meals.filter (fun meal => restrictions.all (fun r => meal.tags.contains r))
        ≠ [] := by
      rw [Ne, List.filter_eq_nil_iff]
      push_neg
      obtain ⟨m, hm, hsat⟩ := hex
      exact ⟨m, hm, by simpa [hp m] using hsat⟩
    have hif : filter_meals_by_restrictions meals restrictions
        = meals.filter (fun meal => restrictions.all (fun r => meal.tags.contains r)) := by
      unfold filter_meals_by_restrictions
      rw [if_neg (by simp [hre]), if_neg (by rw [List.isEmpty_iff]; exact hfne)]
    refine ⟨hif, fun x => ?_⟩
    rw [hif, List.mem_filter]
    simp [hp x]
  · intro hnex
    have hfnil : meals.filter (fun meal => restrictions.all (fun r => meal.tags.contains r))
        = [] := by
      rw [List.filter_eq_nil_iff]
      intro a ha hpa
      exact hnex ⟨a, ha, (hp a).mp hpa⟩
    unfold filter_meals_by_restrictions
    rw [if_neg (by simp [hre]), if_pos (by rw [List.isEmpty_iff]; exact hfnil)]

/-- C4 witness: the characterization at the snack catalog with the
restriction list `['vegan']`. -/
theorem filter_meals_spec_witness :
    (["vegan"] : List String) ≠ []
    ∧ (((∃ meal ∈ MEALS_snacks, ∀ r ∈ (["vegan"] : List String), r ∈ meal.tags) →
        filter_meals_by_restrictions MEALS_snacks ["vegan"]
          = MEALS_snacks.filter (fun meal => (["vegan"] : List String).all
              (fun r => meal.tags.contains r))
        ∧ ∀ x, x ∈ filter_meals_by_restrictions MEALS_snacks ["vegan"]
            ↔ x ∈ MEALS_snacks ∧ ∀ r ∈ (["vegan"] : List String), r ∈ x.tags)
    ∧ ((¬ ∃ meal ∈ MEALS_snacks, ∀ r ∈ (["vegan"] : List String), r ∈ meal.tags) →
        filter_meals_by_restrictions MEALS_snacks ["vegan"] = MEALS_snacks)) :=
  ⟨by decide, filter_meals_spec MEALS_snacks ["vegan"] (by decide)⟩

/-! ## C8: scaling a meal to its own calories is the identity -/

theorem pyRound_den_one (q : ℚ) (h : q.den = 1) : (pyRound q : ℚ) = q := by
  have hq : ((q.num : ℚ)) = q := Rat.coe_int_num_of_den_eq_one h
  rw [← hq, pyRound_intCast]

theorem round1_den_one (q : ℚ) (h : q.den = 1) : round1 q = q := by
  have hq : ((q.num : ℚ)) = q := Rat.coe_int_num_of_den_eq_one h
  refine round1_eq_self q ⟨10 * q.num, ?_⟩
  push_cast
  rw [hq]

/-- C8: for every catalog meal (all of which have integer calorie and macro
values and positive calories), scaling to the meal's own calorie value
(scale factor 1) returns the original calories, protein, carbs and fats. -/
theorem scale_meal_roundtrip (m : Meal) (hm : m ∈ MEALS_all) (hpos : 0 < m.calories)
    (target_calories : ℚ) :
    (scale_meal m target_calories m.calories).calories = m.calories
    ∧ (scale_meal m target_calories m.calories).protein = m.protein
    ∧ (scale_meal m target_calories m.calories).carbs = m.carbs
    ∧ (scale_meal m target_calories m.calories).fats = m.fats := by
  have hden : ∀ x ∈ MEALS_all, x.calories.den = 1 ∧ x.protein.den = 1
      ∧ x.carbs.den = 1 ∧ x.fats.den = 1 := by decide
  obtain ⟨hc, hp, hcb, hf⟩ := hden m hm
  have hne : m.calories ≠ 0 := ne_of_gt hpos
  have key : scale_meal m target_calories m.calories =
      { name := m.name
        calories := (pyRound m.calories : ℚ)
        protein := round1 m.protein
        carbs := round1 m.carbs
        fats := round1 m.fats
        tags := [] } := by
    unfold scale_meal
    rw [if_neg hne, div_self hne]
    simp
  rw [key]
  exact ⟨pyRound_den_one _ hc, round1_den_one _ hp, round1_den_one _ hcb,
    round1_den_one _ hf⟩

/-- C8 witness: the round trip at the first catalog meal. -/
theorem scale_meal_roundtrip_witness :
    MEALS_all.getD 0 default_meal ∈ MEALS_all
    ∧ 0 < (MEALS_all.getD 0 default_meal).calories
    ∧ ((scale_meal (MEALS_all.getD 0 default_meal) 1234
          (MEALS_all.getD 0 default_meal).calories).calories
        = (MEALS_all.getD 0 default_meal).calories
      ∧ (scale_meal (MEALS_all.getD 0 default_meal) 1234
          (MEALS_all.getD 0 default_meal).calories).protein
        = (MEALS_all.getD 0 default_meal).protein
      ∧ (scale_meal (MEALS_all.getD 0 default_meal) 1234
          (MEALS_all.getD 0 default_meal).calories).carbs
        = (MEALS_all.getD 0 default_meal).carbs
      ∧ (scale_meal (MEALS_all.getD 0 default_meal) 1234
          (MEALS_all.getD 0 default_meal).calories).fats
        = (MEALS_all.getD 0 default_meal).fats) :=
  ⟨by decide, by decide,
    scale_meal_roundtrip (MEALS_all.getD 0 default_meal) (by decide) (by decide) 1234⟩

/-! ## C3: the Week Warrior badge is count-based, not streak-based -/

/-- A log with the given date and all metrics zero. -/
def zero_log (d : ℕ) : DailyLog :=
  { date := d, sleep_hours := 0, mood_rating := 0, study_hours := 0, water_intake := 0,
    exercise_minutes := 0, productivity_score := 0 }

/-- Seven logs on alternating days: no two dates are even adjacent. -/
def week_warrior_cex_logs : List DailyLog :=
  [zero_log 1, zero_log 3, zero_log 5, zero_log 7, zero_log 9, zero_log 11, zero_log 13]

/-- C3: `calculate_progress_badges` awards "Week Warrior" (whose own
description reads "Logged 7 days in a row") to a history of seven
alternating days, which contains no run of 7 consecutive calendar days —
the badge tests `len(logs) >= 7`, not a streak. -/
theorem week_warrior_not_streak_based :
    ({ name := "Week Warrior", description := "Logged 7 days in a row" } : Badge)
      ∈ calculate_progress_badges week_warrior_cex_logs
    ∧ ∀ d ∈ week_warrior_cex_logs.map (fun log => log.date),
        ¬ ∀ k : ℕ, k < 7 → (d + k) ∈ week_warrior_cex_logs.map (fun log => log.date) := by
  constructor
  · decide
  · decide

/-! ## C1: positivity of bmi, bmr and calorie_goal -/

/-- C1 counterexample: all inputs positive (age 100, weight 1 kg, height
1 cm), yet the derived bmr is -478.75 < 0, so bmi, bmr and calorie_goal
are not all positive. -/
theorem profile_positive_cex :
    (0:ℚ) < 100 ∧ (0:ℚ) < 1
    ∧ ¬ (0 < (get_complete_profile 100 1 1 "male" "sedentary" "maintain").bmi
        ∧ 0 < (get_complete_profile 100 1 1 "male" "sedentary" "maintain").bmr
        ∧ 0 < (get_complete_profile 100 1 1 "male" "sedentary" "maintain").calorie_goal) := by
  have hbmr : (get_complete_profile 100 1 1 "male" "sedentary" "maintain").bmr = -478.75 := by
    show calculate_bmr 100 1 1 "male" = -478.75
    have hmale : isMale "male" = true := by decide
    unfold calculate_bmr
    rw [hmale, if_pos rfl, round2_eq _ (-47875) (by norm_num)]
    norm_num
  refine ⟨by norm_num, by norm_num, ?_⟩
  rintro ⟨-, hpos, -⟩
  rw [hbmr] at hpos
  norm_num at hpos

/-- C1 (amended): the positivity invariant holds on the realistic input
region 0 < age ≤ 100, weight ≥ 40 kg, 140 ≤ height ≤ 250 cm, for every
gender, activity level and goal string; outside it (extreme positive
inputs) the Mifflin-St Jeor linear form can go negative. -/
theorem profile_positive (age weight_kg height_cm : ℚ) (gender activity_level goal : String)
    (h1 : 0 < age) (h2 : age ≤ 100) (h3 : 40 ≤ weight_kg) (h4 : 140 ≤ height_cm)
    (h5 : height_cm ≤ 250) :
    0 < (get_complete_profile age weight_kg height_cm gender activity_level goal).bmi
    ∧ 0 < (get_complete_profile age weight_kg height_cm gender activity_level goal).bmr
    ∧ 0 < (get_complete_profile age weight_kg height_cm gender activity_level goal).calorie_goal := by
  have hmul1 : (1.2:ℚ) ≤ activity_multiplier activity_level := by
    unfold activity_multiplier
    repeat' split
    all_goals norm_num
  have hbmr : (613 : ℚ) ≤ calculate_bmr age weight_kg height_cm gender := by
    unfold calculate_bmr
    split
    · have h := le_round2 ((10 * weight_kg) + (6.25 * height_cm) - (5 * age) + 5)
      linarith
    · have h := le_round2 ((10 * weight_kg) + (6.25 * height_cm) - (5 * age) - 161)
      linarith
  have htdee : (700 : ℚ) ≤
      calculate_tdee (calculate_bmr age weight_kg height_cm gender) activity_level := by
    unfold calculate_tdee
    have hprod : (613 : ℚ) * 1.2 ≤
        calculate_bmr age weight_kg height_cm gender * activity_multiplier activity_level :=
      mul_le_mul hbmr hmul1 (by norm_num) (by linarith)
    have h := le_round2
      (calculate_bmr age weight_kg height_cm gender * activity_multiplier activity_level)
    linarith
  have hcg : 0 < calculate_calorie_goal
      (calculate_tdee (calculate_bmr age weight_kg height_cm gender) activity_level) goal := by
    set t := calculate_tdee (calculate_bmr age weight_kg height_cm gender) activity_level
      with ht
    unfold calculate_calorie_goal
    split
    · have h := le_round2 (t - 500)
      linarith
    · split
      · have h := le_round2 (t + 500)
        linarith
      · have h := le_round2 t
        linarith
  have hbmi : 0 < calculate_bmi weight_kg height_cm := by
    unfold calculate_bmi
    have hhm : (0:ℚ) < height_cm / 100 := by linarith
    have hsq : (height_cm / 100)^2 ≤ 6.25 := by nlinarith
    have hsqpos : (0:ℚ) < (height_cm / 100)^2 := by positivity
    have hquot : (6.4 : ℚ) ≤ weight_kg / (height_cm / 100)^2 := by
      rw [le_div_iff hsqpos]
      nlinarith
    have h := le_round2 (weight_kg / (height_cm / 100)^2)
    linarith
  exact ⟨hbmi, lt_of_lt_of_le (by norm_num) hbmr, hcg⟩

/-- C1 witness: the amended invariant at a concrete realistic profile. -/
theorem profile_positive_witness :
    (0:ℚ) < 30 ∧ (30:ℚ) ≤ 100 ∧ (40:ℚ) ≤ 70 ∧ (140:ℚ) ≤ 175 ∧ (175:ℚ) ≤ 250
    ∧ (0 < (get_complete_profile 30 70 175 "female" "moderate" "lose").bmi
       ∧ 0 < (get_complete_profile 30 70 175 "female" "moderate" "lose").bmr
       ∧ 0 < (get_complete_profile 30 70 175 "female" "moderate" "lose").calorie_goal) :=
  ⟨by norm_num, by norm_num, by norm_num, by norm_num, by norm_num,
    profile_positive 30 70 175 "female" "moderate" "lose" (by norm_num) (by norm_num)
      (by norm_num) (by norm_num) (by norm_num)⟩

/-! ## C5: calculate_trends guard and short-history baseline -/

/-- C5: with a positive window, `calculate_trends` returns no result exactly
when fewer than `days` logs exist; and with at least `days` but fewer than
`2*days` logs, the "previous" baseline for every metric is the earliest
`days` logs in date order. -/
theorem calculate_trends_spec (logs : List DailyLog) (days : ℕ) (hd : 0 < days) :
    (calculate_trends logs days = none ↔ logs.length < days)
    ∧ (days ≤ logs.length → logs.length < 2 * days →
        calculate_trends logs days
          = some (trends_of (recent_window (sort_logs_by_date logs) days)
              ((sort_logs_by_date logs).take days))
        ∧ previous_window (sort_logs_by_date logs) days
          = (sort_logs_by_date logs).take days) := by
  constructor
  · unfold calculate_trends
    split
    · rename_i h
      simp [h]
    · rename_i h
      simp [h]
  · intro hge hlt2
    have hnot : ¬ (logs.length < days) := not_lt.mpr hge
    have hlen : (sort_logs_by_date logs).length = logs.length :=
      (List.perm_insertionSort _ logs).length_eq
    have hpw : previous_window (sort_logs_by_date logs) days
        = (sort_logs_by_date logs).take days := by
      unfold previous_window
      rw [if_neg]
      rw [hlen]
      omega
    constructor
    · unfold calculate_trends
      rw [if_neg hnot, hpw]
    · exact hpw

/-- Three logs used to instantiate the trends theorems. -/
def trends_witness_logs : List DailyLog := [zero_log 1, zero_log 2, zero_log 3]

/-- C5 witness: three logs and a window of two (at least one window, fewer
than two full windows). -/
theorem calculate_trends_spec_witness :
    0 < 2
    ∧ ((calculate_trends trends_witness_logs 2 = none ↔ trends_witness_logs.length < 2)
    ∧ (2 ≤ trends_witness_logs.length → trends_witness_logs.length < 2 * 2 →
        calculate_trends trends_witness_logs 2
          = some (trends_of (recent_window (sort_logs_by_date trends_witness_logs) 2)
              ((sort_logs_by_date trends_witness_logs).take 2))
        ∧ previous_window (sort_logs_by_date trends_witness_logs) 2
          = (sort_logs_by_date trends_witness_logs).take 2)) :=
  ⟨by decide, calculate_trends_spec trends_witness_logs 2 (by decide)⟩

/-! ## C6: calculate_streak counts consecutive days back from the latest -/

theorem streak_loop_add (l : List ℤ) : ∀ (c : ℤ) (a b : ℕ),
    streak_loop c l (a + b) = streak_loop c l a + b := by
  induction l with
  | nil => intro c a b; rfl
  | cons d ds ih =>
    intro c a b
    simp only [streak_loop]
    split
    · rw [show a + b + 1 = (a + 1) + b by omega, ih]
    · split
      · rfl
      · rw [ih]

/-- On a descending list of dates all at most `c`, the loop started with
streak 1 returns the exact run length: every strictly earlier day of the
run is present, and the first day past the run is absent. -/
theorem streak_loop_run (l : List ℤ) : ∀ c : ℤ,
    List.Sorted (· ≥ ·) l → (∀ x ∈ l, x ≤ c) →
    1 ≤ streak_loop c l 1
    ∧ (∀ j : ℕ, 1 ≤ j → j < streak_loop c l 1 → (c - j) ∈ l)
    ∧ (c - (streak_loop c l 1 : ℤ)) ∉ l := by
  induction l with
  | nil =>
    intro c _ _
    refine ⟨le_refl 1, ?_, ?_⟩
    · intro j h1 h2
      simp only [streak_loop] at h2
      omega
    · exact List.not_mem_nil _
  | cons d ds ih =>
    intro c hsorted hle
    have hds : List.Sorted (· ≥ ·) ds := hsorted.of_cons
    have hdsle : ∀ x ∈ ds, x ≤ d := fun x hx => List.rel_of_sorted_cons hsorted x hx
    have hdc : d ≤ c := hle d (List.mem_cons_self d ds)
    by_cases h1 : c - d = 1
    · have heq : streak_loop c (d :: ds) 1 = streak_loop d ds 1 + 1 := by
        simp only [streak_loop, if_pos h1]
        exact streak_loop_add ds d 1 1
      obtain ⟨ihpos, ihmem, ihnot⟩ := ih d hds hdsle
      refine ⟨by omega, ?_, ?_⟩
      · intro j hj1 hj2
        rw [heq] at hj2
        rcases eq_or_lt_of_le hj1 with hj | hj
        · have hcd : c - (j : ℤ) = d := by omega
          rw [hcd]
          exact List.mem_cons_self d ds
        · have hmem := ihmem (j - 1) (by omega) (by omega)
          have hcd : c - (j : ℤ) = d - ((j - 1 : ℕ) : ℤ) := by push_cast; omega
          rw [hcd]
          exact List.mem_cons_of_mem d hmem
      · rw [heq]
        intro hmem
        rcases List.mem_cons.mp hmem with h | h
        · push_cast at h
          omega
        · have hcd : c - ((streak_loop d ds 1 + 1 : ℕ) : ℤ)
              = d - ((streak_loop d ds 1 : ℕ) : ℤ) := by push_cast; omega
          rw [hcd] at h
          exact ihnot h
    · by_cases h2 : c - d > 1
      · have heq : streak_loop c (d :: ds) 1 = 1 := by
          simp only [streak_loop, if_neg h1, if_pos h2]
        refine ⟨by omega, ?_, ?_⟩
        · intro j hj1 hj2
          rw [heq] at hj2
          omega
        · rw [heq]
          intro hmem
          rcases List.mem_cons.mp hmem with h | h
          · push_cast at h
            omega
          · have := hdsle _ h
            push_cast at this
            omega
      · have hd0 : c = d := by omega
        have heq : streak_loop c (d :: ds) 1 = streak_loop c ds 1 := by
          simp only [streak_loop, if_neg h1, if_neg h2]
        obtain ⟨ihpos, ihmem, ihnot⟩ := ih c hds (fun x hx => (hdsle x hx).trans hdc)
        refine ⟨by omega, ?_, ?_⟩
        · intro j hj1 hj2
          rw [heq] at hj2
          exact List.mem_cons_of_mem d (ihmem j hj1 hj2)
        · rw [heq]
          intro hmem
          rcases List.mem_cons.mp hmem with h | h
          · omega
          · exact ihnot h

/-- C6: `calculate_streak` returns the length of the run of consecutive
calendar days ending at the most recent date `m`: every day of the run is
present in the entry dates, the day just before the run is not, and
duplicate dates count once (membership is date-set membership).  The two
reference examples: dates 3,2,1 give streak 3; dates 1,3 give streak 1. -/
theorem calculate_streak_spec (entries : List JournalEntry) (m : ℤ)
    (hm : m ∈ entries.map (fun e => e.date))
    (hmax : ∀ d ∈ entries.map (fun e => e.date), d ≤ m) :
    (1 ≤ calculate_streak entries
      ∧ (∀ k : ℕ, k < calculate_streak entries →
          (m - k) ∈ entries.map (fun e => e.date))
      ∧ (m - (calculate_streak entries : ℤ)) ∉ entries.map (fun e => e.date))
    ∧ calculate_streak [{ date := 3 }, { date := 2 }, { date := 1 }] = 3
    ∧ calculate_streak [{ date := 1 }, { date := 3 }] = 1 := by
  have hperm : List.Perm (sort_dates_desc (entries.map (fun e => e.date)))
      (entries.map (fun e => e.date)) :=
    List.perm_insertionSort _ _
  have hsorted : List.Sorted (· ≥ ·) (sort_dates_desc (entries.map (fun e => e.date))) :=
    List.sorted_insertionSort _ _
  have hsne : sort_dates_desc (entries.map (fun e => e.date)) ≠ [] := by
    intro h
    rw [h] at hperm
    rw [← hperm.nil_eq] at hm
    exact List.not_mem_nil m hm
  obtain ⟨h0, tail, hcons⟩ := List.exists_cons_of_ne_nil hsne
  have hsorted' : List.Sorted (· ≥ ·) (h0 :: tail) := hcons ▸ hsorted
  have htail_le : ∀ x ∈ tail, x ≤ h0 := fun x hx => List.rel_of_sorted_cons hsorted' x hx
  have hmemiff : ∀ x : ℤ, x ∈ h0 :: tail ↔ x ∈ entries.map (fun e => e.date) := by
    intro x
    rw [← hcons]
    exact hperm.mem_iff
  have hh0m : h0 = m := by
    have h0mem : h0 ∈ entries.map (fun e => e.date) :=
      (hmemiff h0).mp (List.mem_cons_self h0 tail)
    have hmmem : m ∈ h0 :: tail := (hmemiff m).mpr hm
    rcases List.mem_cons.mp hmmem with h | h
    · exact h.symm
    · have hx := htail_le m h
      have hy := hmax h0 h0mem
      omega
  have hcalc : calculate_streak entries = streak_loop h0 tail 1 := by
    unfold calculate_streak
    rw [hcons]
  obtain ⟨hpos, hmem, hnot⟩ := streak_loop_run tail h0 hsorted'.of_cons htail_le
  refine ⟨⟨hcalc ▸ hpos, ?_, ?_⟩, by decide, by decide⟩
  · intro k hk
    rw [hcalc] at hk
    by_cases hk0 : k = 0
    · subst hk0
      simpa using hm
    · have hmm := hmem k (by omega) hk
      refine (hmemiff _).mp ?_
      rw [← hh0m]
      exact List.mem_cons_of_mem h0 hmm
  · rw [hcalc]
    intro hmm
    have hs : h0 - ((streak_loop h0 tail 1 : ℕ) : ℤ)
        = m - ((streak_loop h0 tail 1 : ℕ) : ℤ) := by
      rw [hh0m]
    have hmm2 : h0 - ((streak_loop h0 tail 1 : ℕ) : ℤ) ∈ h0 :: tail := by
      rw [hmemiff, hs]
      exact hmm
    rcases List.mem_cons.mp hmm2 with h | h
    · omega
    · exact hnot h

/-- C6 witness: the characterization at the three-day example with maximum
date 3. -/
theorem calculate_streak_spec_witness :
    ((3:ℤ) ∈ [({ date := 3 } : JournalEntry), { date := 2 }, { date := 1 }].map
        (fun e => e.date))
    ∧ (∀ d ∈ [({ date := 3 } : JournalEntry), { date := 2 }, { date := 1 }].map
        (fun e => e.date), d ≤ 3)
    ∧ ((1 ≤ calculate_streak [({ date := 3 } : JournalEntry), { date := 2 }, { date := 1 }]
      ∧ (∀ k : ℕ, k < calculate_streak
            [({ date := 3 } : JournalEntry), { date := 2 }, { date := 1 }] →
          ((3:ℤ) - k) ∈ [({ date := 3 } : JournalEntry), { date := 2 }, { date := 1 }].map
            (fun e => e.date))
      ∧ ((3:ℤ) - (calculate_streak
            [({ date := 3 } : JournalEntry), { date := 2 }, { date := 1 }] : ℤ))
          ∉ [({ date := 3 } : JournalEntry), { date := 2 }, { date := 1 }].map
            (fun e => e.date))
    ∧ calculate_streak [{ date := 3 }, { date := 2 }, { date := 1 }] = 3
    ∧ calculate_streak [{ date := 1 }, { date := 3 }] = 1) :=
  ⟨by decide, by decide,
    calculate_streak_spec [{ date := 3 }, { date := 2 }, { date := 1 }] 3
      (by decide) (by decide)⟩

/-! ## C9: shape of generated meal plans -/

theorem filter_meals_subset (meals : List Meal) (restrictions : List String) (x : Meal)
    (hx : x ∈ filter_meals_by_restrictions meals restrictions) : x ∈ meals := by
  simp only [filter_meals_by_restrictions] at hx
  split at hx
  · exact hx
  · split at hx
    · exact hx
    · exact (List.mem_filter.mp hx).1

theorem filter_meals_ne_nil (meals : List Meal) (restrictions : List String)
    (h : meals ≠ []) : filter_meals_by_restrictions meals restrictions ≠ [] := by
  simp only [filter_meals_by_restrictions]
  split
  · exact h
  · split
    · exact h
    · rename_i hne
      rw [List.isEmpty_iff] at hne
      simpa using hne

theorem choose_mem (r : ℕ → ℕ) (k : ℕ) (options : List Meal) (h : options ≠ []) :
    choose r k options ∈ options := by
  unfold choose
  have hlen : 0 < options.length := List.length_pos.mpr h
  have hidx : r k % options.length < options.length := Nat.mod_lt _ hlen
  rw [List.getD_eq_getElem?_getD, List.getElem?_eq_getElem hidx]
  exact List.getElem_mem _

theorem ten_mul_scale (m : Meal) (h : m.calories ≠ 0) (t c : ℚ) :
    (∃ z : ℤ, (10:ℚ) * (scale_meal m t c).protein = z)
    ∧ (∃ z : ℤ, (10:ℚ) * (scale_meal m t c).carbs = z)
    ∧ (∃ z : ℤ, (10:ℚ) * (scale_meal m t c).fats = z) := by
  unfold scale_meal
  rw [if_neg h]
  exact ⟨ten_mul_round1 _, ten_mul_round1 _, ten_mul_round1 _⟩

theorem round1_sum4 (a b c d : ℚ) (ha : ∃ z : ℤ, (10:ℚ) * a = z)
    (hb : ∃ z : ℤ, (10:ℚ) * b = z) (hc : ∃ z : ℤ, (10:ℚ) * c = z)
    (hd : ∃ z : ℤ, (10:ℚ) * d = z) :
    round1 (a + b + c + d) = a + b + c + d := by
  obtain ⟨za, hza⟩ := ha
  obtain ⟨zb, hzb⟩ := hb
  obtain ⟨zc, hzc⟩ := hc
  obtain ⟨zd, hzd⟩ := hd
  refine round1_eq_self _ ⟨za + zb + zc + zd, ?_⟩
  push_cast
  rw [← hza, ← hzb, ← hzc, ← hzd]
  ring

/-- What C9 asserts of one generated day plan: day number, all four slots
scaled from catalog meals of the right slot with the right per-slot calorie
budget, and daily totals that are the literal sums of the slot values. -/
def day_plan_ok (calorie_goal : ℚ) (i : ℕ) (dp : DayPlan) : Prop :=
  dp.day = i + 1
  ∧ (∃ meal ∈ MEALS_breakfast,
      dp.breakfast = scale_meal meal calorie_goal (calorie_goal * 0.25))
  ∧ (∃ meal ∈ MEALS_lunch, dp.lunch = scale_meal meal calorie_goal (calorie_goal * 0.35))
  ∧ (∃ meal ∈ MEALS_dinner, dp.dinner = scale_meal meal calorie_goal (calorie_goal * 0.30))
  ∧ (∃ meal ∈ MEALS_snacks, dp.snack = scale_meal meal calorie_goal (calorie_goal * 0.10))
  ∧ dp.daily_total.calories
      = dp.breakfast.calories + dp.lunch.calories + dp.dinner.calories + dp.snack.calories
  ∧ dp.daily_total.protein
      = dp.breakfast.protein + dp.lunch.protein + dp.dinner.protein + dp.snack.protein
  ∧ dp.daily_total.carbs
      = dp.breakfast.carbs + dp.lunch.carbs + dp.dinner.carbs + dp.snack.carbs
  ∧ dp.daily_total.fats
      = dp.breakfast.fats + dp.lunch.fats + dp.dinner.fats + dp.snack.fats

theorem build_day_ok (r : ℕ → ℕ) (calorie_goal : ℚ) (restrictions : List String) (i : ℕ) :
    day_plan_ok calorie_goal i (build_day r calorie_goal restrictions i) := by
  have hbmem : choose r (4*i) (filter_meals_by_restrictions MEALS_breakfast restrictions)
      ∈ MEALS_breakfast :=
    filter_meals_subset _ _ _
      (choose_mem _ _ _ (filter_meals_ne_nil _ _ (by decide)))
  have hlmem : choose r (4*i+1) (filter_meals_by_restrictions MEALS_lunch restrictions)
      ∈ MEALS_lunch :=
    filter_meals_subset _ _ _
      (choose_mem _ _ _ (filter_meals_ne_nil _ _ (by decide)))
  have hdmem : choose r (4*i+2) (filter_meals_by_restrictions MEALS_dinner restrictions)
      ∈ MEALS_dinner :=
    filter_meals_subset _ _ _
      (choose_mem _ _ _ (filter_meals_ne_nil _ _ (by decide)))
  have hsmem : choose r (4*i+3) (filter_meals_by_restrictions MEALS_snacks restrictions)
      ∈ MEALS_snacks :=
    filter_meals_subset _ _ _
      (choose_mem _ _ _ (filter_meals_ne_nil _ _ (by decide)))
  have hbne : ∀ m ∈ MEALS_breakfast, m.calories ≠ 0 := by decide
  have hlne : ∀ m ∈ MEALS_lunch, m.calories ≠ 0 := by decide
  have hdne : ∀ m ∈ MEALS_dinner, m.calories ≠ 0 := by decide
  have hsne : ∀ m ∈ MEALS_snacks, m.calories ≠ 0 := by decide
  obtain ⟨hbp, hbc, hbf⟩ := ten_mul_scale _ (hbne _ hbmem) calorie_goal (calorie_goal * 0.25)
  obtain ⟨hlp, hlc, hlf⟩ := ten_mul_scale _ (hlne _ hlmem) calorie_goal (calorie_goal * 0.35)
  obtain ⟨hdp, hdc, hdf⟩ := ten_mul_scale _ (hdne _ hdmem) calorie_goal (calorie_goal * 0.30)
  obtain ⟨hsp, hsc, hsf⟩ := ten_mul_scale _ (hsne _ hsmem) calorie_goal (calorie_goal * 0.10)
  exact ⟨rfl, ⟨_, hbmem, rfl⟩, ⟨_, hlmem, rfl⟩, ⟨_, hdmem, rfl⟩, ⟨_, hsmem, rfl⟩, rfl,
    round1_sum4 _ _ _ _ hbp hlp hdp hsp,
    round1_sum4 _ _ _ _ hbc hlc hdc hsc,
    round1_sum4 _ _ _ _ hbf hlf hdf hsf⟩

/-- C9: for every choice stream, calorie goal, restriction list and day
count, the generated plan has exactly `days` entries numbered 1..days, each
with four slots scaled from non-empty catalog slot lists and daily totals
that are the literal sums of the four slot values. -/
theorem generate_meal_plan_spec (r : ℕ → ℕ) (calorie_goal : ℚ)
    (restrictions : List String) (days : ℕ) :
    (generate_meal_plan r calorie_goal restrictions days).length = days
    ∧ ∀ i, i < days →
        day_plan_ok calorie_goal i
          ((generate_meal_plan r calorie_goal restrictions days).getD i default_day_plan) := by
  constructor
  · simp [generate_meal_plan]
  · intro i hi
    have hget : (generate_meal_plan r calorie_goal restrictions days).getD i default_day_plan
        = build_day r calorie_goal restrictions i := by
      unfold generate_meal_plan
      rw [List.getD_eq_getElem?_getD, List.getElem?_eq_getElem (by simpa using hi)]
      simp
    rw [hget]
    exact build_day_ok r calorie_goal restrictions i

/-- C9 witness: the default seven-day plan at calorie goal 2000 with no
restrictions, for one concrete choice stream; its first day satisfies the
per-day property. -/
theorem generate_meal_plan_spec_witness :
    (generate_meal_plan (fun _ => 0) 2000 [] 7).length = 7
    ∧ 0 < 7
    ∧ day_plan_ok 2000 0 ((generate_meal_plan (fun _ => 0) 2000 [] 7).getD 0 default_day_plan) :=
  ⟨(generate_meal_plan_spec (fun _ => 0) 2000 [] 7).1, by decide,
    (generate_meal_plan_spec (fun _ => 0) 2000 [] 7).2 0 (by decide)⟩
